import Mathlib

/-!
Verification of `git-tools.py`, a sequential manager for a fleet of git
repositories.  The program is a thin orchestration layer over external
`git` invocations; we embed it shallowly: every external command result is
an input (an environment value), and each operation becomes a pure
function from those inputs to the outcome the Python code computes
(outcome classification, counter increments, and the ordered list of git
commands issued).
-/

namespace GitToolsModel

/-- Python `s.strip()` (modelled over the ASCII whitespace characters):
remove leading and trailing whitespace from the string. -/
def pyStrip (s : String) : String :=
  String.mk (((s.data.dropWhile Char.isWhitespace).reverse.dropWhile Char.isWhitespace).reverse)

/-- Result triple of `GitTools._run_command`:
`(success, stdout, stderr)` where the Python code returns
`(returncode == 0, stdout.strip(), stderr.strip())`. -/
structure CmdResult where
  success : Bool
  stdout : String
  stderr : String
deriving DecidableEq, Repr

/-- The raw fate of a `subprocess.run` call, before `_run_command`
converts it to a `CmdResult`: normal completion with a return code and
captured output, expiry of the 300-second timeout, or any other raised
exception with its message. -/
inductive RawOutcome where
  | completed (returncode : Int) (stdout stderr : String)
  | timedOut
  | raised (msg : String)
deriving DecidableEq, Repr

/-- Model of `GitTools._run_command` (src/git-tools.py lines 43-57): on completion
returns `(returncode == 0, stdout.strip(), stderr.strip())`; on
`subprocess.TimeoutExpired` returns `(False, "", "Command timeout")`; on
any other exception returns `(False, "", str(e))`. -/
def run_command : RawOutcome → CmdResult
  | .completed returncode stdout stderr => ⟨returncode == 0, pyStrip stdout, pyStrip stderr⟩
  | .timedOut => ⟨false, "", "Command timeout"⟩
  | .raised msg => ⟨false, "", msg⟩

/-- Python `s.rstrip('/')` on the character list of `s`: remove every
trailing occurrence of `c`. -/
def rstripChar (c : Char) : List Char → List Char
  | [] => []
  | a :: as =>
    match rstripChar c as with
    | [] => if a == c then [] else [a]
    | b :: bs => a :: b :: bs

/-- Model of `GitTools._get_repo_url` (lines 59-63):
`base = self.base_url.rstrip('/')` then `f"{base}/{repo_name}"`. -/
def get_repo_url (base_url repo_name : String) : String :=
  String.mk (rstripChar '/' base_url.data) ++ "/" ++ repo_name

/-- Model of `GitTools._get_repo_path` (lines 70-72): `checkout_directory / repo_name`. -/
def get_repo_path (checkout_directory repo_name : String) : String :=
  checkout_directory ++ "/" ++ repo_name

/-- A git command the tool can issue, identified by its subcommand
(arguments that matter are carried). -/
inductive GitCmd where
  | statusQuery
  | checkoutMain
  | checkoutMaster
  | pull
  | cloneCmd (url : String) (path : String)
  | branchQuery
deriving DecidableEq, Repr

/-- Per-repository environment for one `update` iteration: whether
`_repo_exists` holds, and the `CmdResult` each possible git invocation
would produce. -/
structure UpdateEnv where
  repoExists : Bool
  statusRes : CmdResult
  checkoutMainRes : CmdResult
  checkoutMasterRes : CmdResult
  pullRes : CmdResult
deriving DecidableEq, Repr

/-- Outcome classification of one `update` iteration. -/
inductive UpdateOutcome where
  | skippedMissing
  | dirty
  | checkoutFailed
  | updated
  | pullFailed
deriving DecidableEq, Repr

/-- What one `update` iteration produced: its outcome, the git commands
it issued in order, and the increments to `success_count` and
`error_count`. -/
structure UpdateStep where
  outcome : UpdateOutcome
  cmds : List GitCmd
  successDelta : Nat
  errorDelta : Nat
deriving DecidableEq, Repr

/-- Body of the `update_repositories` loop (lines 117-150) for one
repository: skip if absent; error out on `git status --porcelain`
succeeding with non-blank (stripped) output; try `git checkout main`,
falling back to `git checkout master`; if a checkout succeeded, `git
pull` and classify its result. -/
def updateRepo (env : UpdateEnv) : UpdateStep :=
  if !env.repoExists then
    ⟨.skippedMissing, [], 0, 0⟩
  else if env.statusRes.success && pyStrip env.statusRes.stdout != "" then
    ⟨.dirty, [.statusQuery], 0, 1⟩
  else if env.checkoutMainRes.success then
    if env.pullRes.success then
      ⟨.updated, [.statusQuery, .checkoutMain, .pull], 1, 0⟩
    else
      ⟨.pullFailed, [.statusQuery, .checkoutMain, .pull], 0, 1⟩
  else if env.checkoutMasterRes.success then
    if env.pullRes.success then
      ⟨.updated, [.statusQuery, .checkoutMain, .checkoutMaster, .pull], 1, 0⟩
    else
      ⟨.pullFailed, [.statusQuery, .checkoutMain, .checkoutMaster, .pull], 0, 1⟩
  else
    ⟨.checkoutFailed, [.statusQuery, .checkoutMain, .checkoutMaster], 0, 1⟩

/-- Aggregate result of `update_repositories`: one `(name, outcome)`
entry per configured repository in order, the two counters of the final
summary line, and all git commands issued. -/
structure UpdateRun where
  trace : List (String × UpdateOutcome)
  success_count : Nat
  error_count : Nat
  cmds : List GitCmd
deriving DecidableEq, Repr

/-- The `update_repositories` loop over the configured list, each
repository paired with its environment. -/
def updateAll : List (String × UpdateEnv) → UpdateRun
  | [] => ⟨[], 0, 0, []⟩
  | (name, env) :: rest =>
    let step := updateRepo env
    let r := updateAll rest
    ⟨(name, step.outcome) :: r.trace,
     step.successDelta + r.success_count,
     step.errorDelta + r.error_count,
     step.cmds ++ r.cmds⟩

/-- Per-repository environment for one `clone` iteration. -/
structure CloneEnv where
  repoExists : Bool
  cloneRes : CmdResult
deriving DecidableEq, Repr

/-- Outcome classification of one `clone` iteration. -/
inductive CloneOutcome where
  | cloned
  | skipped
  | errored
deriving DecidableEq, Repr

/-- What one `clone` iteration produced. -/
structure CloneStep where
  outcome : CloneOutcome
  cmds : List GitCmd
  successDelta : Nat
  skipDelta : Nat
  errorDelta : Nat
deriving DecidableEq, Repr

/-- Body of the `clone_repositories` loop (lines 86-105) for one
repository: skip if `_repo_exists`, otherwise run
`git clone <url> <path>` and classify its result. -/
def cloneRepo (base_url checkout_directory name : String) (env : CloneEnv) : CloneStep :=
  if env.repoExists then
    ⟨.skipped, [], 0, 1, 0⟩
  else if env.cloneRes.success then
    ⟨.cloned, [.cloneCmd (get_repo_url base_url name) (get_repo_path checkout_directory name)], 1, 0, 0⟩
  else
    ⟨.errored, [.cloneCmd (get_repo_url base_url name) (get_repo_path checkout_directory name)], 0, 0, 1⟩

/-- Aggregate result of `clone_repositories`: per-repository trace, the
three counters of the final summary line, and all git commands issued. -/
structure CloneRun where
  trace : List (String × CloneOutcome)
  success_count : Nat
  skip_count : Nat
  error_count : Nat
  cmds : List GitCmd
deriving DecidableEq, Repr

/-- The `clone_repositories` loop over the configured list. -/
def cloneAll (base_url checkout_directory : String) :
    List (String × CloneEnv) → CloneRun
  | [] => ⟨[], 0, 0, 0, []⟩
  | (name, env) :: rest =>
    let step := cloneRepo base_url checkout_directory name env
    let r := cloneAll base_url checkout_directory rest
    ⟨(name, step.outcome) :: r.trace,
     step.successDelta + r.success_count,
     step.skipDelta + r.skip_count,
     step.errorDelta + r.error_count,
     step.cmds ++ r.cmds⟩

/-- Per-repository environment for one `status` iteration. -/
structure StatusEnv where
  repoExists : Bool
  branchRes : CmdResult
  statusRes : CmdResult
deriving DecidableEq, Repr

/-- One line of the `status` report. -/
inductive StatusLine where
  | notFound
  | found (branch_info status_info : String)
deriving DecidableEq, Repr

/-- Line 167: `branch_info = branch if success else "unknown"`. -/
def branchInfo (env : StatusEnv) : String :=
  if env.branchRes.success then env.branchRes.stdout else "unknown"

/-- Lines 171-172: `has_changes = success and status.strip()`;
`status_info = "dirty" if has_changes else "clean"`. -/
def statusInfo (res : CmdResult) : String :=
  if res.success && pyStrip res.stdout != "" then "dirty" else "clean"

/-- Body of the `list_repositories` loop (lines 161-176) for one
repository: `NOT FOUND` if absent, otherwise query the current branch
and the porcelain status and report `EXISTS (branch: _, status: _)`. -/
def statusRepo (env : StatusEnv) : StatusLine × List GitCmd :=
  if env.repoExists then
    (.found (branchInfo env) (statusInfo env.statusRes), [.branchQuery, .statusQuery])
  else
    (.notFound, [])

/-- The `list_repositories` loop over the configured list. -/
def statusAll : List (String × StatusEnv) → List (String × StatusLine) × List GitCmd
  | [] => ([], [])
  | (name, env) :: rest =>
    let r := statusRepo env
    let rs := statusAll rest
    ((name, r.fst) :: rs.fst, r.snd ++ rs.snd)

/-- The configuration file's possible states: absent, unparseable JSON,
or valid with the three fields the program reads. -/
inductive ConfigSrc where
  | missing
  | invalidJson
  | valid (base_url checkout_directory : String) (repositories : List String)
deriving DecidableEq, Repr

/-- The parsed configuration (`_load_config` plus the `__init__`
field reads, lines 16-19). -/
structure Config where
  base_url : String
  checkout_directory : String
  repositories : List String
deriving DecidableEq, Repr

/-- Model of `GitTools._load_config` (lines 31-41): a missing file or invalid
JSON aborts the process (modelled as `none`); otherwise the parsed
configuration is returned. -/
def load_config : ConfigSrc → Option Config
  | .missing => none
  | .invalidJson => none
  | .valid b d r => some ⟨b, d, r⟩

/-- Line 210: membership of an argument in `["-v", "--verbose"]`. -/
def isVerboseFlag (a : String) : Bool :=
  a == "-v" || a == "--verbose"

/-- Line 204: membership of an argument in `["-h", "--help", "help"]`. -/
def isHelpAlias (a : String) : Bool :=
  a == "-h" || a == "--help" || a == "help"

/-- Line 215: membership of an argument in `["clone", "update", "status"]`. -/
def isValidCommand (a : String) : Bool :=
  a == "clone" || a == "update" || a == "status"

/-- The three terminal shapes of `main`'s argument handling. -/
inductive ParseResult where
  | help
  | invalid
  | command (mode : String) (verbose : Bool)
deriving DecidableEq, Repr

/-- Argument handling of `main` (lines 201-220): empty argument list or
a leading help alias shows help; `-v`/`--verbose` anywhere sets the
verbose flag and is stripped; then the first remaining argument must be
a valid command, else the run is a usage error. -/
def parseArgs (args : List String) : ParseResult :=
  match args with
  | [] => .help
  | a0 :: _ =>
    if isHelpAlias a0 then .help
    else
      let verbose := args.contains "-v" || args.contains "--verbose"
      let args2 := if verbose then args.filter (fun a => !isVerboseFlag a) else args
      match args2 with
      | [] => .invalid
      | m :: _ => if isValidCommand m then .command m verbose else .invalid

/-- Observable result of one whole process run: the exit status, whether
the configuration file was ever opened, and every git command issued. -/
structure RunReport where
  exitCode : Nat
  configRead : Bool
  issued : List GitCmd
deriving DecidableEq, Repr

/-- Model of `main` (lines 199-236): parse arguments (help → exit 0, invalid →
exit 1, both before `GitTools()` is constructed); then load the
configuration (failure → exit 1 before any repository work); then run
the selected operation over every configured repository and exit 0.
The per-repository environments are supplied by oracles. -/
def mainRun (args : List String) (cfgSrc : ConfigSrc)
    (cEnv : String → CloneEnv) (uEnv : String → UpdateEnv)
    (sEnv : String → StatusEnv) : RunReport :=
  match parseArgs args with
  | .help => ⟨0, false, []⟩
  | .invalid => ⟨1, false, []⟩
  | .command mode _ =>
    match load_config cfgSrc with
    | none => ⟨1, true, []⟩
    | some cfg =>
      if mode == "clone" then
        ⟨0, true,
         (cloneAll cfg.base_url cfg.checkout_directory
           (cfg.repositories.map (fun r => (r, cEnv r)))).cmds⟩
      else if mode == "update" then
        ⟨0, true, (updateAll (cfg.repositories.map (fun r => (r, uEnv r)))).cmds⟩
      else
        ⟨0, true, (statusAll (cfg.repositories.map (fun r => (r, sEnv r)))).snd⟩

/-- C1: for every repository whose working-tree status query succeeds and
reports uncommitted changes (non-blank stripped output), the update
iteration issues only the status query — no checkout of `main` or
`master` and no pull, so the working tree is left unchanged — classifies
the repository as dirty, increments the error counter (and not the
success counter), and the loop proceeds to the remaining repositories
unchanged. -/
theorem update_dirty_guard (env : UpdateEnv)
    (hex : env.repoExists = true)
    (hs : env.statusRes.success = true)
    (hd : pyStrip env.statusRes.stdout ≠ "") :
    updateRepo env = ⟨.dirty, [.statusQuery], 0, 1⟩ ∧
    GitCmd.checkoutMain ∉ (updateRepo env).cmds ∧
    GitCmd.checkoutMaster ∉ (updateRepo env).cmds ∧
    GitCmd.pull ∉ (updateRepo env).cmds ∧
    ∀ name rest, updateAll ((name, env) :: rest) =
      ⟨(name, .dirty) :: (updateAll rest).trace,
       (updateAll rest).success_count,
       1 + (updateAll rest).error_count,
       GitCmd.statusQuery :: (updateAll rest).cmds⟩ := by
  have h1 : updateRepo env = ⟨.dirty, [.statusQuery], 0, 1⟩ := by
    simp [updateRepo, hex, hs, hd]
  refine ⟨h1, ?_, ?_, ?_, ?_⟩
  · rw [h1]; decide
  · rw [h1]; decide
  · rw [h1]; decide
  · intro name rest
    simp [updateAll, h1]

/-- Witness for C1 at a concrete dirty repository. -/
theorem update_dirty_guard_witness :
    updateRepo ⟨true, ⟨true, " M x", ""⟩, ⟨true, "", ""⟩, ⟨true, "", ""⟩, ⟨true, "", ""⟩⟩ =
      ⟨.dirty, [.statusQuery], 0, 1⟩ :=
  (update_dirty_guard ⟨true, ⟨true, " M x", ""⟩, ⟨true, "", ""⟩, ⟨true, "", ""⟩, ⟨true, "", ""⟩⟩
    rfl rfl (by decide)).1

/-- C10: when the status query itself fails (`success = false`), the
update iteration's uncommitted-changes guard does not fire, whatever the
query's output: the repository is not classified dirty at that step and
the branch switch to `main` is still attempted. -/
theorem update_status_failure_no_guard (env : UpdateEnv)
    (hex : env.repoExists = true)
    (hs : env.statusRes.success = false) :
    (updateRepo env).outcome ≠ .dirty ∧
    GitCmd.checkoutMain ∈ (updateRepo env).cmds := by
  have hguard : (env.statusRes.success && pyStrip env.statusRes.stdout != "") = false := by
    rw [hs]; rfl
  cases hm : env.checkoutMainRes.success <;>
    cases hms : env.checkoutMasterRes.success <;>
      cases hp : env.pullRes.success <;>
        simp [updateRepo, hex, hguard, hm, hms, hp]

/-- Witness for C10: a failed status query with (stale) dirty-looking
output still leads to a checkout attempt. -/
theorem update_status_failure_no_guard_witness :
    (updateRepo ⟨true, ⟨false, " M x", "boom"⟩, ⟨true, "", ""⟩, ⟨true, "", ""⟩, ⟨true, "", ""⟩⟩).outcome ≠ .dirty ∧
    GitCmd.checkoutMain ∈
      (updateRepo ⟨true, ⟨false, " M x", "boom"⟩, ⟨true, "", ""⟩, ⟨true, "", ""⟩, ⟨true, "", ""⟩⟩).cmds :=
  update_status_failure_no_guard
    ⟨true, ⟨false, " M x", "boom"⟩, ⟨true, "", ""⟩, ⟨true, "", ""⟩, ⟨true, "", ""⟩⟩ rfl rfl

/-- C2: for a clean repository (status query succeeded with blank
stripped output) where `git checkout main` fails, the update iteration
attempts `git checkout master`; if that succeeds the pull is still
attempted (and the iteration's outcome is decided by the pull); only
when both checkouts fail is the iteration an error with no pull
attempted. -/
theorem update_master_fallback (env : UpdateEnv)
    (hex : env.repoExists = true)
    (hs : env.statusRes.success = true)
    (hclean : pyStrip env.statusRes.stdout = "")
    (hmain : env.checkoutMainRes.success = false) :
    GitCmd.checkoutMaster ∈ (updateRepo env).cmds ∧
    (env.checkoutMasterRes.success = true →
       GitCmd.pull ∈ (updateRepo env).cmds ∧
       (updateRepo env).outcome =
         (if env.pullRes.success then .updated else .pullFailed) ∧
       (updateRepo env).errorDelta = (if env.pullRes.success then 0 else 1)) ∧
    (env.checkoutMasterRes.success = false →
       (updateRepo env).outcome = .checkoutFailed ∧
       (updateRepo env).errorDelta = 1 ∧
       GitCmd.pull ∉ (updateRepo env).cmds) := by
  have hguard : (env.statusRes.success && pyStrip env.statusRes.stdout != "") = false := by
    rw [hs, hclean]; rfl
  cases hms : env.checkoutMasterRes.success <;>
    cases hp : env.pullRes.success <;>
      simp [updateRepo, hex, hguard, hmain, hms, hp]

/-- Witness for C2 at a concrete repository whose only branch is
`master`. -/
theorem update_master_fallback_witness :
    GitCmd.checkoutMaster ∈
      (updateRepo ⟨true, ⟨true, "", ""⟩, ⟨false, "", "error: pathspec"⟩, ⟨true, "", ""⟩, ⟨true, "", ""⟩⟩).cmds ∧
    GitCmd.pull ∈
      (updateRepo ⟨true, ⟨true, "", ""⟩, ⟨false, "", "error: pathspec"⟩, ⟨true, "", ""⟩, ⟨true, "", ""⟩⟩).cmds :=
  ⟨(update_master_fallback
      ⟨true, ⟨true, "", ""⟩, ⟨false, "", "error: pathspec"⟩, ⟨true, "", ""⟩, ⟨true, "", ""⟩⟩
      rfl rfl rfl rfl).1,
   ((update_master_fallback
      ⟨true, ⟨true, "", ""⟩, ⟨false, "", "error: pathspec"⟩, ⟨true, "", ""⟩, ⟨true, "", ""⟩⟩
      rfl rfl rfl rfl).2.1 rfl).1⟩

/-- C9: every iteration of the clone loop increments exactly one of the
three counters, and consequently the final summary satisfies
`cloned + skipped + errored = number of configured repositories`. -/
theorem clone_counts_partition :
    (∀ base_url checkout_directory name env,
       (cloneRepo base_url checkout_directory name env).successDelta +
         (cloneRepo base_url checkout_directory name env).skipDelta +
         (cloneRepo base_url checkout_directory name env).errorDelta = 1) ∧
    (∀ base_url checkout_directory pairs,
       (cloneAll base_url checkout_directory pairs).success_count +
         (cloneAll base_url checkout_directory pairs).skip_count +
         (cloneAll base_url checkout_directory pairs).error_count = pairs.length) := by
  have hstep : ∀ base_url checkout_directory name env,
      (cloneRepo base_url checkout_directory name env).successDelta +
        (cloneRepo base_url checkout_directory name env).skipDelta +
        (cloneRepo base_url checkout_directory name env).errorDelta = 1 := by
    intro b d n env
    by_cases h1 : env.repoExists = true
    · simp [cloneRepo, h1]
    · by_cases h2 : env.cloneRes.success = true <;>
        simp [cloneRepo, h1, h2]
  refine ⟨hstep, ?_⟩
  intro b d pairs
  induction pairs with
  | nil => rfl
  | cons p rest ih =>
    obtain ⟨name, env⟩ := p
    have hone := hstep b d name env
    have e1 : (cloneAll b d ((name, env) :: rest)).success_count
        = (cloneRepo b d name env).successDelta + (cloneAll b d rest).success_count := rfl
    have e2 : (cloneAll b d ((name, env) :: rest)).skip_count
        = (cloneRepo b d name env).skipDelta + (cloneAll b d rest).skip_count := rfl
    have e3 : (cloneAll b d ((name, env) :: rest)).error_count
        = (cloneRepo b d name env).errorDelta + (cloneAll b d rest).error_count := rfl
    rw [e1, e2, e3, List.length_cons]
    omega

/-- C5: both loops process every configured repository in declaration
order (the trace lists exactly the configured names, in order, whatever
each repository's environment is), and whenever the command line parses
to a valid command and the configuration loads, the process exit code is
0 — per-repository failures in the environments cannot change it. -/
theorem no_early_abort :
    (∀ base_url checkout_directory pairs,
       ((cloneAll base_url checkout_directory pairs).trace).map Prod.fst =
         pairs.map Prod.fst) ∧
    (∀ pairs, ((updateAll pairs).trace).map Prod.fst = pairs.map Prod.fst) ∧
    (∀ args cfgSrc cEnv uEnv sEnv mode verbose,
       parseArgs args = .command mode verbose →
       (∃ cfg, load_config cfgSrc = some cfg) →
       (mainRun args cfgSrc cEnv uEnv sEnv).exitCode = 0) := by
  refine ⟨?_, ?_, ?_⟩
  · intro b d pairs
    induction pairs with
    | nil => rfl
    | cons p rest ih =>
      obtain ⟨name, env⟩ := p
      simp only [cloneAll, List.map_cons]
      rw [ih]
  · intro pairs
    induction pairs with
    | nil => rfl
    | cons p rest ih =>
      obtain ⟨name, env⟩ := p
      simp only [updateAll, List.map_cons]
      rw [ih]
  · intro args cfgSrc cEnv uEnv sEnv mode verbose hp hl
    obtain ⟨cfg, hl⟩ := hl
    simp only [mainRun, hp, hl]
    split
    · rfl
    · split <;> rfl

/-- Witness for C5's exit-code part: an update run in which every git
command fails still exits 0. -/
theorem no_early_abort_witness :
    (mainRun ["update"] (.valid "https://example.test" "." ["a", "b"])
       (fun _ => ⟨false, ⟨false, "", "boom"⟩⟩)
       (fun _ => ⟨true, ⟨true, "", ""⟩, ⟨false, "", "boom"⟩, ⟨false, "", "boom"⟩, ⟨false, "", "boom"⟩⟩)
       (fun _ => ⟨false, ⟨false, "", ""⟩, ⟨false, "", ""⟩⟩)).exitCode = 0 :=
  no_early_abort.2.2 ["update"] (.valid "https://example.test" "." ["a", "b"])
    (fun _ => ⟨false, ⟨false, "", "boom"⟩⟩)
    (fun _ => ⟨true, ⟨true, "", ""⟩, ⟨false, "", "boom"⟩, ⟨false, "", "boom"⟩, ⟨false, "", "boom"⟩⟩)
    (fun _ => ⟨false, ⟨false, "", ""⟩, ⟨false, "", ""⟩⟩)
    "update" false (by decide) ⟨⟨"https://example.test", ".", ["a", "b"]⟩, rfl⟩

/-- C3 counterexample: a failed status query (`success = false`) whose
captured output is non-blank after stripping is reported `clean`, so
"dirty if and only if the query's stripped output is non-blank" fails at
this input. -/
theorem status_dirty_iff_counterexample :
    ¬ (((statusRepo ⟨true, ⟨true, "main", ""⟩, ⟨false, " M x", ""⟩⟩).fst =
          .found "main" "dirty") ↔
        pyStrip (CmdResult.mk false " M x" "").stdout ≠ "") := by
  decide

/-- C3 amended: for every existing repository, the status line is
`EXISTS (branch: _, status: _)` with the code's `statusInfo`, and it
reads `dirty` if and only if the status query succeeded AND its stripped
output is non-blank. -/
theorem status_dirty_iff_amended (env : StatusEnv)
    (hex : env.repoExists = true) :
    (statusRepo env).fst = .found (branchInfo env) (statusInfo env.statusRes) ∧
    ((statusRepo env).fst = .found (branchInfo env) "dirty" ↔
      (env.statusRes.success = true ∧ pyStrip env.statusRes.stdout ≠ "")) := by
  refine ⟨by simp [statusRepo, hex], ?_⟩
  cases hb : (env.statusRes.success && pyStrip env.statusRes.stdout != "") with
  | false =>
    simp only [statusRepo, hex, if_true, statusInfo, hb, if_false]
    constructor
    · intro h
      injection h with h1 h2
      exact absurd h2 (by decide)
    · intro ⟨h1, h2⟩
      rw [h1] at hb
      simp [h2] at hb
  | true =>
    simp only [statusRepo, hex, if_true, statusInfo, hb, if_true]
    simp only [Bool.and_eq_true, bne_iff_ne, ne_eq] at hb
    simp [hb.1, hb.2]

/-- Witness for C3's amended statement at a concrete dirty repository. -/
theorem status_dirty_iff_amended_witness :
    (statusRepo ⟨true, ⟨true, "main", ""⟩, ⟨true, " M x", ""⟩⟩).fst =
      .found (branchInfo ⟨true, ⟨true, "main", ""⟩, ⟨true, " M x", ""⟩⟩)
        (statusInfo ⟨true, " M x", ""⟩) ∧
    ((statusRepo ⟨true, ⟨true, "main", ""⟩, ⟨true, " M x", ""⟩⟩).fst =
      .found (branchInfo ⟨true, ⟨true, "main", ""⟩, ⟨true, " M x", ""⟩⟩) "dirty" ↔
      ((true : Bool) = true ∧ pyStrip " M x" ≠ "")) :=
  status_dirty_iff_amended ⟨true, ⟨true, "main", ""⟩, ⟨true, " M x", ""⟩⟩ rfl

/-- C8 counterexample: a normal non-zero exit whose stderr is literally
`Command timeout` (and empty stdout) yields exactly the same result
triple as a timeout, so the timeout reason is not distinguishable from
every normal non-zero exit. -/
theorem run_command_timeout_counterexample :
    run_command .timedOut = run_command (.completed 1 "" "Command timeout") ∧
    (1 : Int) ≠ 0 := by
  decide

/-- C8 amended: a timeout yields the failure triple
`(False, "", "Command timeout")` while a non-zero exit yields
`(False, stdout.strip(), stderr.strip())`; the two are distinguishable
whenever the command's stripped stderr is not itself the literal
`Command timeout` or its stripped stdout is non-empty. -/
theorem run_command_failure_shapes :
    run_command .timedOut = ⟨false, "", "Command timeout"⟩ ∧
    (∀ returncode stdout stderr, returncode ≠ 0 →
       run_command (.completed returncode stdout stderr) =
         ⟨false, pyStrip stdout, pyStrip stderr⟩ ∧
       (pyStrip stderr ≠ "Command timeout" ∨ pyStrip stdout ≠ "" →
         run_command (.completed returncode stdout stderr) ≠ run_command .timedOut)) := by
  refine ⟨rfl, ?_⟩
  intro rc out err hrc
  have hbeq : (rc == 0) = false := by
    cases h : rc == 0
    · rfl
    · exact absurd (by simpa using h) hrc
  refine ⟨by simp [run_command, hbeq], ?_⟩
  intro hdist heq
  simp only [run_command, hbeq, CmdResult.mk.injEq, true_and] at heq
  rcases hdist with h | h
  · exact h heq.2
  · exact h heq.1

/-- Witness for C8's amended statement at a concrete failed command. -/
theorem run_command_failure_shapes_witness :
    run_command (.completed 1 "" "fatal: not a repository") =
      ⟨false, pyStrip "", pyStrip "fatal: not a repository"⟩ ∧
    run_command (.completed 1 "" "fatal: not a repository") ≠ run_command .timedOut :=
  ⟨(run_command_failure_shapes.2 1 "" "fatal: not a repository" (by decide)).1,
   (run_command_failure_shapes.2 1 "" "fatal: not a repository" (by decide)).2
     (Or.inl (by decide))⟩

/-- Lemma: `rstripChar` removes exactly the trailing occurrences of `c`: the
input splits as the result followed by some run of `c`s, and the result
has no trailing `c`. -/
theorem rstripChar_split (c : Char) (l : List Char) :
    (∃ k, l = rstripChar c l ++ List.replicate k c) ∧
    (rstripChar c l).getLast? ≠ some c := by
  induction l with
  | nil => exact ⟨⟨0, rfl⟩, by simp [rstripChar]⟩
  | cons a as ih =>
    obtain ⟨⟨k, hk⟩, hlast⟩ := ih
    cases hr : rstripChar c as with
    | nil =>
      rw [hr] at hk
      simp only [List.nil_append] at hk
      by_cases hac : (a == c) = true
      · have hae : a = c := by simpa using hac
        have hre : rstripChar c (a :: as) = [] := by
          simp [rstripChar, hr, hac]
        refine ⟨⟨k + 1, ?_⟩, ?_⟩
        · rw [hre]
          simp [List.replicate_succ, hae, hk]
        · rw [hre]; simp
      · have hre : rstripChar c (a :: as) = [a] := by
          simp [rstripChar, hr, hac]
        have hane : a ≠ c := by simpa using hac
        refine ⟨⟨k, ?_⟩, ?_⟩
        · rw [hre]
          simp [hk]
        · rw [hre]
          simp [hane]
    | cons b bs =>
      have hre : rstripChar c (a :: as) = a :: b :: bs := by
        simp [rstripChar, hr]
      rw [hr] at hk hlast
      refine ⟨⟨k, ?_⟩, ?_⟩
      · rw [hre, hk]
        simp
      · rw [hre, List.getLast?_cons_cons]
        exact hlast

/-- C4: the clone URL is the base URL with all trailing slashes removed
(the remainder splits off a run of slashes and the kept prefix does not
end in one), then a single slash, then the repository name; the
spec's concrete example holds. -/
theorem get_repo_url_correct :
    (∀ base_url repo_name : String,
       get_repo_url base_url repo_name =
         String.mk (rstripChar '/' base_url.data) ++ "/" ++ repo_name ∧
       (∃ k, base_url.data = rstripChar '/' base_url.data ++ List.replicate k '/') ∧
       (rstripChar '/' base_url.data).getLast? ≠ some '/') ∧
    get_repo_url "https://example.test/org/" "foo" = "https://example.test/org/foo" := by
  refine ⟨fun b n =>
    ⟨rfl, (rstripChar_split '/' b.data).1, (rstripChar_split '/' b.data).2⟩, by decide⟩

/-- When the filtered (verbose-stripped) argument list starts with a
token that is neither a valid command nor a help alias, `main`'s
argument handling is a usage error. -/
theorem parseArgs_invalid (args : List String) (m : String) (rest : List String)
    (hf : args.filter (fun a => !isVerboseFlag a) = m :: rest)
    (hcmd : isValidCommand m = false)
    (hhelp : isHelpAlias m = false) :
    parseArgs args = .invalid := by
  cases args with
  | nil => simp at hf
  | cons a0 as =>
    by_cases hv : isVerboseFlag a0 = true
    · have ha0 : a0 = "-v" ∨ a0 = "--verbose" := by
        simpa only [isVerboseFlag, Bool.or_eq_true, beq_iff_eq] using hv
      have hha : isHelpAlias a0 = false := by
        rcases ha0 with h | h <;> subst h <;> decide
      have hcond : ("-v" = a0 ∨ "-v" ∈ as) ∨ ("--verbose" = a0 ∨ "--verbose" ∈ as) := by
        rcases ha0 with h | h
        · exact Or.inl (Or.inl h.symm)
        · exact Or.inr (Or.inl h.symm)
      simp [parseArgs, hha, hf, hcond, hcmd]
    · have hv' : isVerboseFlag a0 = false := Bool.eq_false_iff.mpr hv
      have hfa : (a0 :: as).filter (fun a => !isVerboseFlag a)
          = a0 :: as.filter (fun a => !isVerboseFlag a) := by
        simp [List.filter_cons, hv']
      rw [hfa] at hf
      injection hf with h1 h2
      subst h1
      by_cases hbp : (("-v" = a0 ∨ "-v" ∈ as) ∨ ("--verbose" = a0 ∨ "--verbose" ∈ as))
      · simp [parseArgs, hhelp, hfa, h2, hbp, hcmd]
      · simp [parseArgs, hhelp, hbp, hcmd]

/-- C6: whenever the first non-verbose argument is neither a valid
command nor a help alias, the run is a usage error: exit status 1, the
configuration file is never opened, and no git command is issued. -/
theorem invalid_command_exits_without_config (args : List String) (m : String)
    (rest : List String) (cfgSrc : ConfigSrc)
    (cEnv : String → CloneEnv) (uEnv : String → UpdateEnv) (sEnv : String → StatusEnv)
    (hf : args.filter (fun a => !isVerboseFlag a) = m :: rest)
    (hcmd : isValidCommand m = false)
    (hhelp : isHelpAlias m = false) :
    mainRun args cfgSrc cEnv uEnv sEnv = ⟨1, false, []⟩ := by
  have hp := parseArgs_invalid args m rest hf hcmd hhelp
  simp [mainRun, hp]

/-- Witness for C6 at `["bogus"]`. -/
theorem invalid_command_exits_without_config_witness :
    mainRun ["bogus"] .missing (fun _ => ⟨false, ⟨false, "", ""⟩⟩)
      (fun _ => ⟨false, ⟨false, "", ""⟩, ⟨false, "", ""⟩, ⟨false, "", ""⟩, ⟨false, "", ""⟩⟩)
      (fun _ => ⟨false, ⟨false, "", ""⟩, ⟨false, "", ""⟩⟩) = ⟨1, false, []⟩ :=
  invalid_command_exits_without_config ["bogus"] "bogus" [] .missing _ _ _
    (by decide) (by decide) (by decide)

/-- C7: with a valid command, a missing or unparseable configuration
file makes the process exit with status 1 with no git command ever
issued — no repository is cloned, updated or queried. -/
theorem config_error_fatal (args : List String) (cfgSrc : ConfigSrc)
    (cEnv : String → CloneEnv) (uEnv : String → UpdateEnv) (sEnv : String → StatusEnv)
    (mode : String) (verbose : Bool)
    (hp : parseArgs args = .command mode verbose)
    (hc : cfgSrc = .missing ∨ cfgSrc = .invalidJson) :
    (mainRun args cfgSrc cEnv uEnv sEnv).exitCode = 1 ∧
    (mainRun args cfgSrc cEnv uEnv sEnv).issued = [] := by
  rcases hc with h | h <;> subst h <;> simp [mainRun, hp, load_config]

/-- Witness for C7 at `["clone"]` with a missing configuration file. -/
theorem config_error_fatal_witness :
    (mainRun ["clone"] .missing (fun _ => ⟨false, ⟨false, "", ""⟩⟩)
       (fun _ => ⟨false, ⟨false, "", ""⟩, ⟨false, "", ""⟩, ⟨false, "", ""⟩, ⟨false, "", ""⟩⟩)
       (fun _ => ⟨false, ⟨false, "", ""⟩, ⟨false, "", ""⟩⟩)).exitCode = 1 ∧
    (mainRun ["clone"] .missing (fun _ => ⟨false, ⟨false, "", ""⟩⟩)
       (fun _ => ⟨false, ⟨false, "", ""⟩, ⟨false, "", ""⟩, ⟨false, "", ""⟩, ⟨false, "", ""⟩⟩)
       (fun _ => ⟨false, ⟨false, "", ""⟩, ⟨false, "", ""⟩⟩)).issued = [] :=
  config_error_fatal ["clone"] .missing _ _ _ "clone" false (by decide) (Or.inl rfl)

end GitToolsModel
